import Mathlib

/-!
Verification of the retrieval-augmented answer loop of the `rag-agent`
repository.  The Python modules `app/vectorstore.py`, `app/rag.py` and
`app/agentic_rag.py` are shallowly embedded below: pure computations become
Lean functions, the generation / embedding backend and the Chroma index are
modelled as explicit oracles (function-valued parameters), and Python
exceptions raised by a backend call are modelled as an `err` constructor of
the corresponding outcome type.  Relevance scores (Python floats) are
modelled as rationals.
-/

namespace RagAgent

/-! ## Embedding of `app/vectorstore.py` -/

/-- A LangChain `Document` as produced by the Chroma store: page content plus
the two metadata fields the repository reads (`source`, `chunk_id`).  A
`none` field models a metadata dictionary missing that key. -/
structure Doc where
  page_content : String
  source : Option String
  chunk_id : Option String
  deriving DecidableEq, Repr

/-- Outcome of `similarity_search_with_score`: either a ranked list of
`(document, score)` pairs or a raised exception. -/
inductive SimOutcome where
  | ok (results : List (Doc × ℚ))
  | err (msg : String)
  deriving Repr

/-- Outcome of Chroma's `max_marginal_relevance_search` (documents without
scores) or a raised exception. -/
inductive MMROutcome where
  | ok (docs : List Doc)
  | err (msg : String)
  deriving Repr

/-- Behaviour of a loaded Chroma vector store, as seen through the three
operations `search_similar` / `search_mmr` perform on it.  `embedQuery none`
models `embeddings.embed_query` raising. -/
structure Store where
  simSearch : String → Nat → SimOutcome
  mmrSearch : String → Nat → Nat → ℚ → MMROutcome
  embedQuery : String → Option Unit

/-- `search_similar` (vectorstore.py lines 159-183): returns `[]` when the
store is not initialised (`get_vectorstore()` returned `None`) and `[]` when
the underlying search raises. -/
def search_similar (vs : Option Store) (query : String) (k : Nat) :
    List (Doc × ℚ) :=
  match vs with
  | none => []
  | some v =>
    match v.simSearch query k with
    | .ok results => results
    | .err _ => []

/-- Score re-derivation for one MMR-selected document (vectorstore.py lines
227-239): a similarity lookup on the first 200 characters of the document's
own content; a raised lookup or an empty lookup result yields the default
score `0.5`. -/
def mmrScore (v : Store) (doc : Doc) : ℚ :=
  match v.simSearch (doc.page_content.take 200) 1 with
  | .ok ((_, score) :: _) => score
  | .ok [] => 1/2
  | .err _ => 1/2

/-- `search_mmr` (vectorstore.py lines 186-245).  The store not being
initialised, the MMR search raising, or `embed_query` raising (caught by the
outer handler) all yield `[]`; otherwise each selected document is paired
with its re-derived score. -/
def search_mmr (vs : Option Store) (query : String) (k fetch_k : Nat)
    (lambda_mult : ℚ) : List (Doc × ℚ) :=
  match vs with
  | none => []
  | some v =>
    match v.mmrSearch query k fetch_k lambda_mult with
    | .err _ => []
    | .ok docs =>
      if docs.isEmpty then []
      else
        match v.embedQuery query with
        | none => []
        | some _ => docs.map (fun d => (d, mmrScore v d))

/-! ## Embedding of `app/rag.py` -/

/-- `ConfidenceLevel` from `app/schemas.py`. -/
inductive ConfidenceLevel where
  | high
  | medium
  | low
  deriving DecidableEq, Repr

/-- `RetrievalMode` from `app/schemas.py`. -/
inductive RetrievalMode where
  | similarity
  | mmr
  deriving DecidableEq, Repr

/-- `AnswerMode` from `app/schemas.py`. -/
inductive AnswerMode where
  | strict
  | balanced
  | creative
  deriving DecidableEq, Repr

/-- `max(score for _, score in docs)` over a non-empty list (`0` in the
unreachable empty case, matching the `if docs else 0` guard). -/
def max_score_of (docs : List (Doc × ℚ)) : ℚ :=
  match docs.map Prod.snd with
  | [] => 0
  | s :: rest => rest.foldl max s

/-- `calculate_confidence` (rag.py lines 175-214).  `min_score` and
`min_sources` are the two fields of the RAG config that the function reads.
The source has two distinct `elif`/`else` arms that both return MEDIUM; both
are kept. -/
def calculate_confidence (docs : List (Doc × ℚ)) (min_score : ℚ)
    (min_sources : ℤ) : ConfidenceLevel × Bool :=
  if docs.isEmpty then (ConfidenceLevel.low, true)
  else
    let max_score := max_score_of docs
    let valid_sources : ℤ := (docs.filter (fun p => min_score ≤ p.2)).length
    let need_fallback : Bool :=
      decide (max_score < min_score) || decide (valid_sources < min_sources)
    let confidence :=
      if need_fallback then ConfidenceLevel.low
      else if 7/10 ≤ max_score ∧ 3 ≤ valid_sources then ConfidenceLevel.high
      else if 2/5 ≤ max_score ∧ 2 ≤ valid_sources then ConfidenceLevel.medium
      else ConfidenceLevel.medium
    (confidence, need_fallback)

/-- Modelled from the spec: the Confidence Evaluator algorithm exactly as
§4.2 of the spec words it (steps 1-6, with a single "else MEDIUM" arm), to
be compared with `calculate_confidence` from the source. -/
def confidence_spec (docs : List (Doc × ℚ)) (min_score : ℚ)
    (min_sources : ℤ) : ConfidenceLevel × Bool :=
  if docs.isEmpty then (ConfidenceLevel.low, true)
  else
    let max_score := max_score_of docs
    let valid_count : ℤ := (docs.filter (fun p => min_score ≤ p.2)).length
    let needs_fallback : Bool :=
      decide (max_score < min_score) || decide (valid_count < min_sources)
    let level :=
      if needs_fallback then ConfidenceLevel.low
      else if 7/10 ≤ max_score ∧ 3 ≤ valid_count then ConfidenceLevel.high
      else ConfidenceLevel.medium
    (level, needs_fallback)

/-- Which branch of `rag_query` / `rag_query_stream` produces the answer
text. -/
inductive AnswerSource where
  | notReady
  | fallbackTemplate
  | noDocsMessage
  | generated
  deriving DecidableEq, Repr

/-- Answer-path selection of `rag_query` (rag.py lines 281-334):
not-ready check, retrieval by mode, confidence computation, then the
fallback / no-docs / generation branches. -/
def rag_query_path (ready : Bool) (vs : Option Store) (question : String)
    (top_k : Nat) (mmr_lambda min_score : ℚ) (min_sources : ℤ)
    (retrieval_mode : RetrievalMode) (answer_mode : AnswerMode) :
    AnswerSource :=
  if ready = false then AnswerSource.notReady
  else
    let retrieved_docs :=
      if retrieval_mode = RetrievalMode.mmr then
        search_mmr vs question top_k 20 mmr_lambda
      else search_similar vs question top_k
    let need_fallback := (calculate_confidence retrieved_docs min_score min_sources).2
    if need_fallback = true ∧ answer_mode = AnswerMode.strict then
      AnswerSource.fallbackTemplate
    else if retrieved_docs.isEmpty then AnswerSource.noDocsMessage
    else AnswerSource.generated

/-- Answer-path selection of `rag_query_stream` (rag.py lines 382-443); the
branch structure is the same `if / elif / else` as the synchronous variant. -/
def rag_stream_path (ready : Bool) (vs : Option Store) (question : String)
    (top_k : Nat) (mmr_lambda min_score : ℚ) (min_sources : ℤ)
    (retrieval_mode : RetrievalMode) (answer_mode : AnswerMode) :
    AnswerSource :=
  if ready = false then AnswerSource.notReady
  else
    let retrieved_docs :=
      if retrieval_mode = RetrievalMode.mmr then
        search_mmr vs question top_k 20 mmr_lambda
      else search_similar vs question top_k
    let need_fallback := (calculate_confidence retrieved_docs min_score min_sources).2
    if need_fallback = true ∧ answer_mode = AnswerMode.strict then
      AnswerSource.fallbackTemplate
    else if retrieved_docs.isEmpty then AnswerSource.noDocsMessage
    else AnswerSource.generated

/-! ## Embedding of `app/agentic_rag.py` -/

/-- `truncate_text` (utils.py lines 460-464), counting characters as Python
does. -/
def truncate_text (text : String) (max_length : Nat) : String :=
  if text.length ≤ max_length then text
  else text.take max_length ++ "..."

/-- `round(x, 3)` applied to a score (agentic_rag.py line 144).  Python
rounds half to even on exact decimal ties of the underlying float; away from
ties this is the usual rounding to 3 decimals, which is what is modelled (no
claim depends on tie behaviour). -/
def round3 (q : ℚ) : ℚ := (⌊q * 1000 + 1/2⌋ : ℚ) / 1000

/-- One entry of `retrieved_chunks` (agentic_rag.py lines 140-145). -/
structure Chunk where
  content : String
  source : String
  chunk_id : String
  score : ℚ
  deriving DecidableEq, Repr

/-- One entry of `all_sources` (agentic_rag.py lines 147-154). -/
structure SourceEntry where
  source : String
  chunk_id : String
  snippet : String
  score : ℚ
  rank_before : Nat
  rank_after : Nat
  deriving DecidableEq, Repr

/-- `AgentState` (agentic_rag.py lines 21-52).  Per LangGraph semantics only
`all_sources` is annotated with `add` (accumulating); every other key is
replaced by a node's update.  `reasoning_trace` entries are modelled by
their `step` name only (the extra per-step payload fields influence nothing);
`filters` and the raw `critique_result` dict are carried by no claim and are
omitted. -/
structure AgentState where
  original_query : String
  current_query : String
  user_id : String
  top_k : Nat
  retrieval_mode : RetrievalMode
  retrieved_chunks : List Chunk
  all_sources : List SourceEntry
  draft_answer : String
  claims : List String
  decision : String
  refined_query : Option String
  gaps : List String
  loop_count : Nat
  max_loops : Nat
  final_answer : String
  confidence : String
  reasoning_trace : List String
  deriving Repr

/-- The fields of a successfully `json.loads`-parsed draft response, with the
`.get` defaults already applied. -/
structure DraftParsed where
  answer : String
  claims : List String
  deriving Repr

/-- Outcome of the draft LLM call: a raised exception, or a response whose
text is `raw` and whose JSON parse either failed (`none`) or produced
`some` answer/claims. -/
inductive DraftLLM where
  | err (msg : String)
  | ok (parsed : Option DraftParsed) (raw : String)
  deriving Repr

/-- The fields of a successfully parsed critique response, with the `.get`
defaults (`decision = "final"`, `confidence = "medium"`, `gaps = []`,
`refined_query = None`) already applied. -/
structure CritiqueParsed where
  decision : String
  confidence : String
  gaps : List String
  refined_query : Option String
  deriving Repr

/-- Outcome of the critique LLM call: a raised exception, or a response
whose JSON parse failed (`none`) or succeeded. -/
inductive CritiqueLLM where
  | err (msg : String)
  | ok (parsed : Option CritiqueParsed)
  deriving Repr

/-- Outcome of the fallback LLM call in `finalize_node`. -/
inductive FallbackLLM where
  | err (msg : String)
  | ok (text : String)
  deriving Repr

/-- `retrieve_node` (agentic_rag.py lines 119-170): search by mode, format
chunks and sources; `all_sources` accumulates (LangGraph `add`),
`retrieved_chunks` is replaced. -/
def retrieve_node (vs : Option Store) (mmr_lambda : ℚ) (s : AgentState) :
    AgentState :=
  let results :=
    if s.retrieval_mode = RetrievalMode.mmr then
      search_mmr vs s.current_query s.top_k 20 mmr_lambda
    else search_similar vs s.current_query s.top_k
  let chunks := results.enum.map (fun p =>
    { content := p.2.1.page_content
      source := p.2.1.source.getD "unknown"
      chunk_id := p.2.1.chunk_id.getD ("chunk_" ++ toString p.1)
      score := round3 p.2.2 : Chunk })
  let sources := results.enum.map (fun p =>
    { source := p.2.1.source.getD "unknown"
      chunk_id := p.2.1.chunk_id.getD ("chunk_" ++ toString p.1)
      snippet := truncate_text p.2.1.page_content 300
      score := round3 p.2.2
      rank_before := p.1 + 1
      rank_after := p.1 + 1 : SourceEntry })
  { s with
    retrieved_chunks := chunks
    all_sources := s.all_sources ++ sources
    reasoning_trace := ["retrieve"] }

/-- `draft_node` (agentic_rag.py lines 173-247): empty retrieval substitutes
the fixed not-found answer without calling the LLM; an LLM exception yields
an error answer with no claims; an unparseable response degrades to the raw
text with no claims. -/
def draft_node (out : DraftLLM) (s : AgentState) : AgentState :=
  if s.retrieved_chunks.isEmpty then
    { s with
      draft_answer := "未能找到相关信息。"
      claims := []
      reasoning_trace := ["draft"] }
  else
    match out with
    | .err msg =>
      { s with
        draft_answer := "生成回答时出错: " ++ msg
        claims := []
        reasoning_trace := ["draft"] }
    | .ok none raw =>
      { s with draft_answer := raw, claims := [], reasoning_trace := ["draft"] }
    | .ok (some p) _ =>
      { s with
        draft_answer := p.answer
        claims := p.claims
        reasoning_trace := ["draft"] }

/-- `critique_node` (agentic_rag.py lines 250-347).  Empty claim list
short-circuits to `final` / `medium`; a JSON parse failure uses the default
dict (`final` / `medium`); the round-counter override to `final` fires when
`loop_count >= max_loops - 1` (Python int arithmetic, hence the cast to ℤ);
an LLM exception yields `final` / `low`. -/
def critique_node (out : CritiqueLLM) (s : AgentState) : AgentState :=
  if s.claims.isEmpty then
    { s with
      decision := "final"
      refined_query := none
      gaps := []
      confidence := "medium"
      reasoning_trace := ["critique"] }
  else
    match out with
    | .err _ =>
      { s with
        decision := "final"
        refined_query := none
        gaps := []
        confidence := "low"
        reasoning_trace := ["critique"] }
    | .ok parsed =>
      let r := parsed.getD
        { decision := "final", confidence := "medium", gaps := [],
          refined_query := none }
      let decision :=
        if (s.max_loops : ℤ) - 1 ≤ (s.loop_count : ℤ) then "final"
        else r.decision
      { s with
        decision := decision
        refined_query := r.refined_query
        gaps := r.gaps
        confidence := r.confidence
        reasoning_trace := ["critique"] }

/-- `should_continue` (agentic_rag.py lines 416-420). -/
def should_continue (s : AgentState) : String :=
  if s.decision = "need_more" ∧ s.loop_count < s.max_loops then "refine"
  else "finalize"

/-- `refine_query_node` (agentic_rag.py lines 350-365).  Python's
`state.get('refined_query') or state['original_query']` treats both `None`
and the empty string as absent. -/
def refine_query_node (s : AgentState) : AgentState :=
  let new_query :=
    match s.refined_query with
    | some q => if q = "" then s.original_query else q
    | none => s.original_query
  { s with
    current_query := new_query
    loop_count := s.loop_count + 1
    reasoning_trace := ["refine_query"] }

/-- `finalize_node` (agentic_rag.py lines 368-412): the draft is kept
verbatim when confidence is high/medium or no gaps were reported, otherwise
the fallback LLM is invoked (its exception falls back to the draft); the
confidence string is mapped through `confidence_map` with default MEDIUM. -/
def finalize_node (out : FallbackLLM) (s : AgentState) : AgentState :=
  let final_answer :=
    if s.confidence = "high" ∨ s.confidence = "medium" ∨ s.gaps.isEmpty then
      s.draft_answer
    else
      match out with
      | .ok text => text
      | .err _ => s.draft_answer
  let final_confidence :=
    if s.confidence = "high" then "high"
    else if s.confidence = "medium" then "medium"
    else if s.confidence = "low" then "low"
    else "medium"
  { s with
    final_answer := final_answer
    confidence := final_confidence
    reasoning_trace := ["finalize"] }

/-- The backend behaviour one whole agentic request can observe: the vector
store, the MMR lambda from config, the draft and critique LLM outcomes of
each round (indexed by `loop_count`), and the fallback LLM outcome. -/
structure Oracle where
  vs : Option Store
  mmr_lambda : ℚ
  draft : Nat → DraftLLM
  critique : Nat → CritiqueLLM
  fallback : FallbackLLM

lemma retrieve_node_loop_count (vs : Option Store) (lm : ℚ) (s : AgentState) :
    (retrieve_node vs lm s).loop_count = s.loop_count := rfl

lemma retrieve_node_max_loops (vs : Option Store) (lm : ℚ) (s : AgentState) :
    (retrieve_node vs lm s).max_loops = s.max_loops := rfl

lemma draft_node_loop_count (out : DraftLLM) (s : AgentState) :
    (draft_node out s).loop_count = s.loop_count := by
  unfold draft_node
  split
  · rfl
  · cases out with
    | err m => rfl
    | ok p raw => cases p <;> rfl

lemma draft_node_max_loops (out : DraftLLM) (s : AgentState) :
    (draft_node out s).max_loops = s.max_loops := by
  unfold draft_node
  split
  · rfl
  · cases out with
    | err m => rfl
    | ok p raw => cases p <;> rfl

lemma critique_node_loop_count (out : CritiqueLLM) (s : AgentState) :
    (critique_node out s).loop_count = s.loop_count := by
  unfold critique_node
  split
  · rfl
  · cases out <;> rfl

lemma critique_node_max_loops (out : CritiqueLLM) (s : AgentState) :
    (critique_node out s).max_loops = s.max_loops := by
  unfold critique_node
  split
  · rfl
  · cases out <;> rfl

lemma should_continue_refine {s : AgentState}
    (h : should_continue s = "refine") :
    s.decision = "need_more" ∧ s.loop_count < s.max_loops := by
  unfold should_continue at h
  split at h
  · assumption
  · simp at h

/-- The linear retrieve → draft → critique segment of one round of the
compiled graph; the per-round LLM outcomes are looked up at the round's
`loop_count`. -/
def round_step (O : Oracle) (s : AgentState) : AgentState :=
  let s1 := retrieve_node O.vs O.mmr_lambda s
  let s2 := draft_node (O.draft s1.loop_count) s1
  critique_node (O.critique s2.loop_count) s2

lemma round_step_loop_count (O : Oracle) (s : AgentState) :
    (round_step O s).loop_count = s.loop_count := by
  unfold round_step
  simp only [critique_node_loop_count, draft_node_loop_count,
    retrieve_node_loop_count]

lemma round_step_max_loops (O : Oracle) (s : AgentState) :
    (round_step O s).max_loops = s.max_loops := by
  unfold round_step
  simp only [critique_node_max_loops, draft_node_max_loops,
    retrieve_node_max_loops]

/-- The compiled graph run (`create_agentic_rag_graph`, agentic_rag.py lines
424-455): retrieve → draft → critique, then the conditional edge loops back
through refine or finishes through finalize.  Recursion is on the distance
from `loop_count` to `max_loops`, which `refine_query_node` strictly
shrinks. -/
def runLoop (O : Oracle) (s : AgentState) : AgentState :=
  if h : should_continue (round_step O s) = "refine" then
    runLoop O (refine_query_node (round_step O s))
  else finalize_node O.fallback (round_step O s)
termination_by s.max_loops - s.loop_count
decreasing_by
  have hlt := (should_continue_refine h).2
  simp only [round_step_loop_count, round_step_max_loops] at hlt
  simp only [refine_query_node, round_step_loop_count, round_step_max_loops]
  omega

/-- Deduplication of `all_sources` by `(source, chunk_id)` with a `seen` set
(agentic_rag.py lines 529-535). -/
def dedup_sources_aux (seen : List (String × String)) :
    List SourceEntry → List SourceEntry
  | [] => []
  | x :: rest =>
    if (x.source, x.chunk_id) ∈ seen then dedup_sources_aux seen rest
    else x :: dedup_sources_aux ((x.source, x.chunk_id) :: seen) rest

def dedup_sources (l : List SourceEntry) : List SourceEntry :=
  dedup_sources_aux [] l

/-- The initial `AgentState` built by `agentic_rag_query` (lines 500-521). -/
def initial_state (question user_id : String) (top_k : Nat)
    (retrieval_mode : RetrievalMode) (max_loops : Nat) : AgentState :=
  { original_query := question
    current_query := question
    user_id := user_id
    top_k := top_k
    retrieval_mode := retrieval_mode
    retrieved_chunks := []
    all_sources := []
    draft_answer := ""
    claims := []
    decision := ""
    refined_query := none
    gaps := []
    loop_count := 0
    max_loops := max_loops
    final_answer := ""
    confidence := "medium"
    reasoning_trace := [] }

/-- The response dictionary of `agentic_rag_query`. -/
structure AgenticResult where
  message_id : String
  answer : String
  sources : List SourceEntry
  confidence : String
  reasoning_trace : List String
  loops_used : Nat
  deriving Repr

/-- `agentic_rag_query` (agentic_rag.py lines 470-573).  `exn = some e`
models the graph invocation raising an exception `e` that reaches the
`except` handler (lines 563-573); `exn = none` is a normal run.  On success
the accumulated sources are deduplicated and `loops_used` is the final
`loop_count + 1`; on exception the handler returns an error answer, empty
sources, confidence `low` and `loops_used = 0`. -/
def agentic_rag_query (exn : Option String) (message_id : String)
    (O : Oracle) (question user_id : String) (top_k : Nat)
    (retrieval_mode : RetrievalMode) (max_loops : Nat) : AgenticResult :=
  match exn with
  | some e =>
    { message_id := message_id
      answer := "Agentic RAG 执行出错: " ++ e
      sources := []
      confidence := "low"
      reasoning_trace := ["error"]
      loops_used := 0 }
  | none =>
    let final := runLoop O
      (initial_state question user_id top_k retrieval_mode max_loops)
    { message_id := message_id
      answer := final.final_answer
      sources := dedup_sources final.all_sources
      confidence := final.confidence
      reasoning_trace := final.reasoning_trace
      loops_used := final.loop_count + 1 }

/-! ## Helper lemmas -/

lemma retrieve_node_all_sources (vs : Option Store) (lm : ℚ) (s : AgentState) :
    ∃ new, (retrieve_node vs lm s).all_sources = s.all_sources ++ new :=
  ⟨_, rfl⟩

lemma draft_node_all_sources (out : DraftLLM) (s : AgentState) :
    (draft_node out s).all_sources = s.all_sources := by
  unfold draft_node
  split
  · rfl
  · cases out with
    | err m => rfl
    | ok p raw => cases p <;> rfl

lemma critique_node_all_sources (out : CritiqueLLM) (s : AgentState) :
    (critique_node out s).all_sources = s.all_sources := by
  unfold critique_node
  split
  · rfl
  · cases out <;> rfl

lemma refine_query_node_all_sources (s : AgentState) :
    (refine_query_node s).all_sources = s.all_sources := rfl

lemma refine_query_node_loop_count (s : AgentState) :
    (refine_query_node s).loop_count = s.loop_count + 1 := rfl

lemma refine_query_node_max_loops (s : AgentState) :
    (refine_query_node s).max_loops = s.max_loops := rfl

lemma finalize_node_all_sources (out : FallbackLLM) (s : AgentState) :
    (finalize_node out s).all_sources = s.all_sources := rfl

lemma finalize_node_loop_count (out : FallbackLLM) (s : AgentState) :
    (finalize_node out s).loop_count = s.loop_count := rfl

lemma round_step_all_sources (O : Oracle) (s : AgentState) :
    ∃ new, (round_step O s).all_sources = s.all_sources ++ new := by
  unfold round_step
  rw [critique_node_all_sources, draft_node_all_sources]
  exact ⟨_, rfl⟩

/-- Every recursive pass of the graph only ever appends to `all_sources`. -/
lemma runLoop_all_sources_grows (O : Oracle) (s : AgentState) :
    ∃ t, (runLoop O s).all_sources = s.all_sources ++ t := by
  induction s using runLoop.induct O with
  | case1 s h ih =>
    obtain ⟨t1, h1⟩ := round_step_all_sources O s
    obtain ⟨t2, h2⟩ := ih
    rw [refine_query_node_all_sources, h1] at h2
    unfold runLoop
    rw [dif_pos h, h2, List.append_assoc]
    exact ⟨t1 ++ t2, rfl⟩
  | case2 s h =>
    obtain ⟨t1, h1⟩ := round_step_all_sources O s
    unfold runLoop
    rw [dif_neg h, finalize_node_all_sources, h1]
    exact ⟨t1, rfl⟩

/-- The round counter never exceeds the larger of its starting value and
`max_loops`. -/
lemma runLoop_loop_count_le (O : Oracle) (s : AgentState) :
    (runLoop O s).loop_count ≤ max s.loop_count s.max_loops := by
  induction s using runLoop.induct O with
  | case1 s h ih =>
    have hlt := (should_continue_refine h).2
    rw [round_step_loop_count, round_step_max_loops] at hlt
    rw [refine_query_node_loop_count, refine_query_node_max_loops,
      round_step_loop_count, round_step_max_loops] at ih
    unfold runLoop
    rw [dif_pos h]
    omega
  | case2 s h =>
    unfold runLoop
    rw [dif_neg h, finalize_node_loop_count, round_step_loop_count]
    omega

lemma dedup_sources_aux_sublist (seen : List (String × String))
    (l : List SourceEntry) :
    List.Sublist (dedup_sources_aux seen l) l := by
  induction l generalizing seen with
  | nil => simp [dedup_sources_aux]
  | cons x rest ih =>
    unfold dedup_sources_aux
    split
    · exact List.Sublist.cons x (ih seen)
    · exact List.Sublist.cons₂ x (ih _)

lemma dedup_sources_aux_not_seen (seen : List (String × String))
    (l : List SourceEntry) :
    ∀ x ∈ dedup_sources_aux seen l, (x.source, x.chunk_id) ∉ seen := by
  induction l generalizing seen with
  | nil => intro x hx; simp [dedup_sources_aux] at hx
  | cons y rest ih =>
    intro x hx
    by_cases hc : (y.source, y.chunk_id) ∈ seen
    · rw [dedup_sources_aux, if_pos hc] at hx
      exact ih seen x hx
    · rw [dedup_sources_aux, if_neg hc] at hx
      rcases List.mem_cons.mp hx with hx2 | hx2
      · subst hx2; exact hc
      · have := ih _ x hx2
        intro hmem
        exact this (List.mem_cons_of_mem _ hmem)

lemma dedup_sources_aux_pairwise (seen : List (String × String))
    (l : List SourceEntry) :
    (dedup_sources_aux seen l).Pairwise
      (fun a b => (a.source, a.chunk_id) ≠ (b.source, b.chunk_id)) := by
  induction l generalizing seen with
  | nil => simp [dedup_sources_aux]
  | cons y rest ih =>
    unfold dedup_sources_aux
    split
    · exact ih seen
    · refine List.Pairwise.cons ?_ (ih _)
      intro b hb
      have := dedup_sources_aux_not_seen _ _ b hb
      intro hkey
      exact this (by rw [← hkey]; exact List.mem_cons_self _ _)

lemma dedup_sources_aux_covers (seen : List (String × String))
    (l : List SourceEntry) :
    ∀ x ∈ l, (x.source, x.chunk_id) ∈ seen ∨
      ∃ y ∈ dedup_sources_aux seen l,
        (y.source, y.chunk_id) = (x.source, x.chunk_id) := by
  induction l generalizing seen with
  | nil => intro x hx; simp at hx
  | cons z rest ih =>
    intro x hx
    by_cases hc : (z.source, z.chunk_id) ∈ seen
    · rw [dedup_sources_aux, if_pos hc]
      rcases List.mem_cons.mp hx with hx2 | hx2
      · subst hx2; left; exact hc
      · exact ih seen x hx2
    · rw [dedup_sources_aux, if_neg hc]
      rcases List.mem_cons.mp hx with hx2 | hx2
      · subst hx2; right; exact ⟨x, List.mem_cons_self _ _, rfl⟩
      · rcases ih ((z.source, z.chunk_id) :: seen) x hx2 with hseen | ⟨y, hy, hkey⟩
        · rcases List.mem_cons.mp hseen with heq | hseen2
          · right; exact ⟨z, List.mem_cons_self _ _, heq.symm⟩
          · left; exact hseen2
        · right; exact ⟨y, List.mem_cons_of_mem _ hy, hkey⟩

/-- When the first retrieval (similarity mode) comes back empty, the round
goes retrieve → draft (fixed not-found answer, no claims) → critique
(no-claims short-circuit: `final`/`medium`) in one pass. -/
lemma round_step_empty (O : Oracle) (s : AgentState)
    (hmode : s.retrieval_mode = RetrievalMode.similarity)
    (h : search_similar O.vs s.current_query s.top_k = []) :
    round_step O s =
      { s with
        retrieved_chunks := []
        all_sources := s.all_sources
        draft_answer := "未能找到相关信息。"
        claims := []
        decision := "final"
        refined_query := none
        gaps := []
        confidence := "medium"
        reasoning_trace := ["critique"] } := by
  have h1 : retrieve_node O.vs O.mmr_lambda s =
      { s with
        retrieved_chunks := []
        all_sources := s.all_sources
        reasoning_trace := ["retrieve"] } := by
    unfold retrieve_node
    rw [hmode]
    simp [h]
  unfold round_step
  simp only [h1]
  have h2 : draft_node (O.draft ({ s with
        retrieved_chunks := ([] : List Chunk)
        all_sources := s.all_sources
        reasoning_trace := ["retrieve"] : AgentState }).loop_count)
      { s with
        retrieved_chunks := []
        all_sources := s.all_sources
        reasoning_trace := ["retrieve"] } =
      { s with
        retrieved_chunks := []
        all_sources := s.all_sources
        draft_answer := "未能找到相关信息。"
        claims := []
        reasoning_trace := ["draft"] } := by
    unfold draft_node
    simp
  rw [h2]
  unfold critique_node
  simp

/-- A whole `agentic_rag_query` run (similarity mode) whose first retrieval
is empty: one loop, the fixed not-found answer, confidence `medium`, no
sources. -/
lemma agentic_run_empty (O : Oracle) (mid question user_id : String)
    (top_k max_loops : Nat)
    (h : search_similar O.vs question top_k = []) :
    agentic_rag_query none mid O question user_id top_k
        RetrievalMode.similarity max_loops =
      { message_id := mid
        answer := "未能找到相关信息。"
        sources := []
        confidence := "medium"
        reasoning_trace := ["finalize"]
        loops_used := 1 } := by
  have hstep := round_step_empty O
    (initial_state question user_id top_k RetrievalMode.similarity max_loops)
    rfl h
  have hsc : should_continue (round_step O
      (initial_state question user_id top_k RetrievalMode.similarity
        max_loops)) = "finalize" := by
    rw [hstep]
    unfold should_continue
    simp
  have hrun : runLoop O
      (initial_state question user_id top_k RetrievalMode.similarity
        max_loops) =
      finalize_node O.fallback (round_step O
        (initial_state question user_id top_k RetrievalMode.similarity
          max_loops)) := by
    unfold runLoop
    rw [dif_neg]
    rw [hsc]
    simp
  unfold agentic_rag_query
  rw [hrun, hstep]
  unfold finalize_node
  simp [initial_state, dedup_sources, dedup_sources_aux]

lemma should_continue_not_need_more {s : AgentState}
    (h : s.decision ≠ "need_more") : should_continue s = "finalize" := by
  unfold should_continue
  rw [if_neg]
  rintro ⟨h1, _⟩
  exact h h1

/-! ## Concrete fixtures for witnesses and counterexamples -/

/-- An oracle whose vector store is absent and whose LLM calls all raise. -/
def emptyOracle : Oracle :=
  { vs := none
    mmr_lambda := 1/2
    draft := fun _ => DraftLLM.err "backend down"
    critique := fun _ => CritiqueLLM.err "backend down"
    fallback := FallbackLLM.err "backend down" }

/-- A state one round before the cap (`loop_count = 1`, `max_loops = 2`)
with a non-empty claim list. -/
def overrideState : AgentState :=
  { initial_state "q" "u" 5 RetrievalMode.similarity 2 with
    claims := ["c1"], loop_count := 1 }

/-- A critique recommendation to keep looping. -/
def needMoreOutcome : CritiqueLLM :=
  CritiqueLLM.ok (some
    { decision := "need_more", confidence := "high", gaps := ["gap"],
      refined_query := some "refined q" })

/-- A round-0 state with a non-empty claim list. -/
def parseFailState : AgentState :=
  { initial_state "q" "u" 5 RetrievalMode.similarity 2 with claims := ["c1"] }

/-- Three retrieval results with `max_score = 0.8` and all three scores above
`0.25`. -/
def exampleDocs : List (Doc × ℚ) :=
  [ (⟨"passage a", some "doc1.md", some "doc1_0"⟩, 4/5),
    (⟨"passage b", some "doc2.md", some "doc2_0"⟩, 1/2),
    (⟨"passage c", some "doc3.md", some "doc3_0"⟩, 3/10) ]

/-- The document selected by `mmrFixStore`'s MMR search. -/
def mmrDoc : Doc := ⟨"mmr passage", some "m.md", some "m_0"⟩

/-- A store whose MMR search selects one document but whose similarity
lookup returns no result, so the score cannot be re-derived. -/
def mmrFixStore : Store :=
  { simSearch := fun _ _ => SimOutcome.ok []
    mmrSearch := fun _ _ _ _ => MMROutcome.ok [mmrDoc]
    embedQuery := fun _ => some () }

/-- A store returning a single low-scoring document (score `0.1`, below the
default `min_score = 0.25`, so `needs_fallback` is true). -/
def lowScoreStore : Store :=
  { simSearch := fun _ _ =>
      SimOutcome.ok [(⟨"weak passage", some "w.md", some "w_0"⟩, 1/10)]
    mmrSearch := fun _ _ _ _ => MMROutcome.err "unused"
    embedQuery := fun _ => some () }

/-! ## Claim theorems -/

/-- Claim C1: whenever the critique step's decision would be `need_more` but
the round counter has reached `max_loops - 1`, `critique_node` overrides the
decision to `final` regardless of the backend's output, and the router then
takes the finalize edge, so no refine transition (hence no further retrieval
pass) occurs at or beyond round `max_loops - 1`. -/
theorem C1_round_cap_override (s : AgentState) (out : CritiqueLLM)
    (h : (s.max_loops : ℤ) - 1 ≤ (s.loop_count : ℤ)) :
    (critique_node out s).decision = "final" ∧
    should_continue (critique_node out s) = "finalize" := by
  have hdec : (critique_node out s).decision = "final" := by
    unfold critique_node
    by_cases hc : s.claims.isEmpty
    · simp [hc]
    · cases out with
      | err m => simp [hc]
      | ok parsed => simp [hc, h]
  refine ⟨hdec, should_continue_not_need_more ?_⟩
  rw [hdec]
  decide

/-- Witness for C1 at a concrete input: round 1 of `max_loops = 2`, backend
recommending `need_more`. -/
theorem C1_round_cap_override_witness :
    (critique_node needMoreOutcome overrideState).decision = "final" ∧
    should_continue (critique_node needMoreOutcome overrideState) =
      "finalize" :=
  C1_round_cap_override overrideState needMoreOutcome (by decide)

/-- Claim C2 counterexample: when the workflow raises, `agentic_rag_query`
returns `loops_used = 0`, violating `1 ≤ loops_used`. -/
theorem C2_loops_used_counterexample :
    (agentic_rag_query (some "boom") "mid-2" emptyOracle "q" "u" 5
        RetrievalMode.similarity 2).loops_used = 0 ∧
    ¬ 1 ≤ (agentic_rag_query (some "boom") "mid-2" emptyOracle "q" "u" 5
        RetrievalMode.similarity 2).loops_used :=
  ⟨rfl, by decide⟩

/-- Claim C2 (amended): on every run in which the workflow does not raise,
`1 ≤ loops_used ≤ max_loops + 1`; when the workflow raises, the exception
handler returns `loops_used = 0`. -/
theorem C2_loops_used_bounds (O : Oracle) (mid question user_id e : String)
    (top_k : Nat) (mode : RetrievalMode) (max_loops : Nat) :
    1 ≤ (agentic_rag_query none mid O question user_id top_k mode
        max_loops).loops_used ∧
    (agentic_rag_query none mid O question user_id top_k mode
        max_loops).loops_used ≤ max_loops + 1 ∧
    (agentic_rag_query (some e) mid O question user_id top_k mode
        max_loops).loops_used = 0 := by
  refine ⟨Nat.succ_le_succ (Nat.zero_le _), ?_, rfl⟩
  have hle := runLoop_loop_count_le O
    (initial_state question user_id top_k mode max_loops)
  have h0 : (initial_state question user_id top_k mode
      max_loops).loop_count = 0 := rfl
  have h1 : (initial_state question user_id top_k mode
      max_loops).max_loops = max_loops := rfl
  rw [h0, h1] at hle
  show (runLoop O (initial_state question user_id top_k mode
    max_loops)).loop_count + 1 ≤ max_loops + 1
  omega

/-- Claim C3: the Confidence Evaluator of the source computes exactly the
spec's algorithm (empty ⇒ LOW/fallback; `needs_fallback` from `max_score`
and `valid_count`; HIGH iff `max_score ≥ 0.7` and `valid_count ≥ 3`, MEDIUM
otherwise), and on evidence with `max_score = 0.8` and 3 items above
`min_score = 0.25` it returns HIGH with `needs_fallback = false`. -/
theorem C3_confidence_evaluator (docs : List (Doc × ℚ)) (min_score : ℚ)
    (min_sources : ℤ) :
    calculate_confidence docs min_score min_sources =
      confidence_spec docs min_score min_sources ∧
    calculate_confidence exampleDocs (1/4) 1 =
      (ConfidenceLevel.high, false) := by
  constructor
  · unfold calculate_confidence confidence_spec
    by_cases hnil : docs.isEmpty
    · rw [if_pos hnil, if_pos hnil]
    · rw [if_neg hnil, if_neg hnil]
      dsimp only
      split_ifs <;> rfl
  · norm_num [calculate_confidence, exampleDocs, max_score_of]

/-- Claim C4 counterexample: when the critique output cannot be parsed as
JSON, the round is treated as `final` but with confidence `medium`, not
`low`. -/
theorem C4_unparseable_counterexample :
    (critique_node (CritiqueLLM.ok none) parseFailState).decision =
      "final" ∧
    (critique_node (CritiqueLLM.ok none) parseFailState).confidence =
      "medium" ∧
    (critique_node (CritiqueLLM.ok none) parseFailState).confidence ≠
      "low" := by
  refine ⟨by decide, by decide, by decide⟩

/-- Claim C4 (amended): with a non-empty claim list, a critique exception
yields `final` with confidence `low`, while unparseable critique output
yields `final` with confidence `medium`; in both cases the router takes the
finalize edge, so the failure is never propagated and never causes an
additional loop. -/
theorem C4_critique_failure_safe (s : AgentState) (msg : String)
    (h : s.claims ≠ []) :
    ((critique_node (CritiqueLLM.err msg) s).decision = "final" ∧
     (critique_node (CritiqueLLM.err msg) s).confidence = "low" ∧
     should_continue (critique_node (CritiqueLLM.err msg) s) =
       "finalize") ∧
    ((critique_node (CritiqueLLM.ok none) s).decision = "final" ∧
     (critique_node (CritiqueLLM.ok none) s).confidence = "medium" ∧
     should_continue (critique_node (CritiqueLLM.ok none) s) =
       "finalize") := by
  have hne : ¬ (s.claims.isEmpty = true) := by
    cases hcl : s.claims with
    | nil => exact absurd hcl h
    | cons a l => simp
  have herr : (critique_node (CritiqueLLM.err msg) s).decision = "final" ∧
      (critique_node (CritiqueLLM.err msg) s).confidence = "low" := by
    unfold critique_node
    rw [if_neg hne]
    exact ⟨rfl, rfl⟩
  have hok : (critique_node (CritiqueLLM.ok none) s).decision = "final" ∧
      (critique_node (CritiqueLLM.ok none) s).confidence = "medium" := by
    unfold critique_node
    rw [if_neg hne]
    constructor
    · by_cases hcap : (s.max_loops : ℤ) - 1 ≤ (s.loop_count : ℤ) <;>
        simp [hcap]
    · rfl
  refine ⟨⟨herr.1, herr.2, should_continue_not_need_more ?_⟩,
    ⟨hok.1, hok.2, should_continue_not_need_more ?_⟩⟩
  · rw [herr.1]; decide
  · rw [hok.1]; decide

/-- Witness for C4 (amended) at a concrete round-0 state with one claim. -/
theorem C4_critique_failure_safe_witness :
    ((critique_node (CritiqueLLM.err "boom") parseFailState).decision =
       "final" ∧
     (critique_node (CritiqueLLM.err "boom") parseFailState).confidence =
       "low" ∧
     should_continue (critique_node (CritiqueLLM.err "boom")
       parseFailState) = "finalize") ∧
    ((critique_node (CritiqueLLM.ok none) parseFailState).decision =
       "final" ∧
     (critique_node (CritiqueLLM.ok none) parseFailState).confidence =
       "medium" ∧
     should_continue (critique_node (CritiqueLLM.ok none) parseFailState) =
       "finalize") :=
  C4_critique_failure_safe parseFailState "boom" (by decide)

/-- Claim C5 counterexample: with an unbuilt index (round-0 retrieval
empty) and `max_loops = 2`, the returned confidence is `medium`, not the
`low` the claim states. -/
theorem C5_empty_retrieval_counterexample :
    (agentic_rag_query none "mid-5" emptyOracle "q" "u" 5
        RetrievalMode.similarity 2).confidence = "medium" ∧
    (agentic_rag_query none "mid-5" emptyOracle "q" "u" 5
        RetrievalMode.similarity 2).confidence ≠ "low" := by
  have hrun := agentic_run_empty emptyOracle "mid-5" "q" "u" 5 2 rfl
  rw [hrun]
  exact ⟨rfl, by decide⟩

/-- Claim C5 (amended): if retrieval at round 0 (similarity mode) returns
no results and `max_loops = 2`, the run returns `loops_used = 1`, the fixed
not-found answer substituted by the draft step without invoking generation,
and confidence `medium`. -/
theorem C5_empty_retrieval_run (O : Oracle) (mid question user_id : String)
    (top_k : Nat)
    (h : search_similar O.vs question top_k = []) :
    (agentic_rag_query none mid O question user_id top_k
        RetrievalMode.similarity 2).loops_used = 1 ∧
    (agentic_rag_query none mid O question user_id top_k
        RetrievalMode.similarity 2).answer = "未能找到相关信息。" ∧
    (agentic_rag_query none mid O question user_id top_k
        RetrievalMode.similarity 2).confidence = "medium" ∧
    (agentic_rag_query none mid O question user_id top_k
        RetrievalMode.similarity 2).sources = [] := by
  rw [agentic_run_empty O mid question user_id top_k 2 h]
  exact ⟨rfl, rfl, rfl, rfl⟩

/-- Witness for C5 (amended) with a store-less oracle. -/
theorem C5_empty_retrieval_run_witness :
    (agentic_rag_query none "mid-5w" emptyOracle "q" "u" 5
        RetrievalMode.similarity 2).loops_used = 1 ∧
    (agentic_rag_query none "mid-5w" emptyOracle "q" "u" 5
        RetrievalMode.similarity 2).answer = "未能找到相关信息。" ∧
    (agentic_rag_query none "mid-5w" emptyOracle "q" "u" 5
        RetrievalMode.similarity 2).confidence = "medium" ∧
    (agentic_rag_query none "mid-5w" emptyOracle "q" "u" 5
        RetrievalMode.similarity 2).sources = [] :=
  C5_empty_retrieval_run emptyOracle "mid-5w" "q" "u" 5 rfl

/-- Claim C6: with the vector index not yet built (`get_vectorstore()` is
`None`), both retrieval modes return the empty list; modelled as total
functions, neither raises to the caller. -/
theorem C6_unbuilt_index_empty (query : String) (k fetch_k : Nat)
    (lambda_mult : ℚ) :
    search_similar none query k = [] ∧
    search_mmr none query k fetch_k lambda_mult = [] :=
  ⟨rfl, rfl⟩

/-- Claim C7: the sources of a completed agentic run contain no duplicate
`(source, chunk_id)` pairs, they are a subsequence of the accumulated
`all_sources` (so first-seen order is preserved), and every accumulated
key survives deduplication. -/
theorem C7_final_sources_dedup (O : Oracle) (mid question user_id : String)
    (top_k : Nat) (mode : RetrievalMode) (max_loops : Nat) :
    ((agentic_rag_query none mid O question user_id top_k mode
        max_loops).sources).Pairwise
      (fun a b => (a.source, a.chunk_id) ≠ (b.source, b.chunk_id)) ∧
    List.Sublist
      (agentic_rag_query none mid O question user_id top_k mode
        max_loops).sources
      (runLoop O (initial_state question user_id top_k mode
        max_loops)).all_sources ∧
    ∀ e ∈ (runLoop O (initial_state question user_id top_k mode
        max_loops)).all_sources,
      ∃ e2 ∈ (agentic_rag_query none mid O question user_id top_k mode
          max_loops).sources,
        (e2.source, e2.chunk_id) = (e.source, e.chunk_id) := by
  have hs : (agentic_rag_query none mid O question user_id top_k mode
      max_loops).sources =
      dedup_sources_aux []
        (runLoop O (initial_state question user_id top_k mode
          max_loops)).all_sources := rfl
  rw [hs]
  refine ⟨dedup_sources_aux_pairwise [] _, dedup_sources_aux_sublist [] _,
    ?_⟩
  intro e he
  rcases dedup_sources_aux_covers [] _ e he with hseen | ⟨y, hy, hkey⟩
  · simp at hseen
  · exact ⟨y, hy, hkey⟩

/-- Witness for C7 at a concrete run. -/
theorem C7_final_sources_dedup_witness :
    ((agentic_rag_query none "mid-7" emptyOracle "q" "u" 5
        RetrievalMode.similarity 2).sources).Pairwise
      (fun a b => (a.source, a.chunk_id) ≠ (b.source, b.chunk_id)) ∧
    List.Sublist
      (agentic_rag_query none "mid-7" emptyOracle "q" "u" 5
        RetrievalMode.similarity 2).sources
      (runLoop emptyOracle (initial_state "q" "u" 5
        RetrievalMode.similarity 2)).all_sources ∧
    ∀ e ∈ (runLoop emptyOracle (initial_state "q" "u" 5
        RetrievalMode.similarity 2)).all_sources,
      ∃ e2 ∈ (agentic_rag_query none "mid-7" emptyOracle "q" "u" 5
          RetrievalMode.similarity 2).sources,
        (e2.source, e2.chunk_id) = (e.source, e.chunk_id) :=
  C7_final_sources_dedup emptyOracle "mid-7" "q" "u" 5
    RetrievalMode.similarity 2

/-- Claim C8: within one request the accumulated `all_sources` only grows:
the retrieve node appends, every other node leaves it unchanged, and the
whole loop extends the initial list without removing or deduplicating any
item before finalization. -/
theorem C8_evidence_only_grows (O : Oracle) (s : AgentState)
    (out_d : DraftLLM) (out_c : CritiqueLLM) (out_f : FallbackLLM) :
    (∃ new, (retrieve_node O.vs O.mmr_lambda s).all_sources =
      s.all_sources ++ new) ∧
    (draft_node out_d s).all_sources = s.all_sources ∧
    (critique_node out_c s).all_sources = s.all_sources ∧
    (refine_query_node s).all_sources = s.all_sources ∧
    (finalize_node out_f s).all_sources = s.all_sources ∧
    (∃ t, (runLoop O s).all_sources = s.all_sources ++ t) :=
  ⟨retrieve_node_all_sources O.vs O.mmr_lambda s,
   draft_node_all_sources out_d s,
   critique_node_all_sources out_c s,
   refine_query_node_all_sources s,
   finalize_node_all_sources out_f s,
   runLoop_all_sources_grows O s⟩

/-- Claim C9: in MMR mode, a selected document whose relevance score cannot
be re-derived by the secondary similarity lookup (the lookup raises or
returns no result) is assigned the neutral default score `0.5` instead of
failing the call. -/
theorem C9_mmr_default_score (v : Store) (query : String) (k fetch_k : Nat)
    (lambda_mult : ℚ) (docs : List Doc) (d : Doc)
    (hmmr : v.mmrSearch query k fetch_k lambda_mult = MMROutcome.ok docs)
    (hembed : v.embedQuery query = some ())
    (hd : d ∈ docs)
    (hfail : v.simSearch (d.page_content.take 200) 1 = SimOutcome.ok [] ∨
      ∃ m, v.simSearch (d.page_content.take 200) 1 = SimOutcome.err m) :
    (d, (1 : ℚ)/2) ∈ search_mmr (some v) query k fetch_k lambda_mult := by
  have hne : ¬ (docs.isEmpty = true) := by
    cases docs with
    | nil => cases hd
    | cons a l => simp
  have hscore : mmrScore v d = 1/2 := by
    unfold mmrScore
    rcases hfail with hf | ⟨m, hf⟩ <;> rw [hf]
  unfold search_mmr
  simp only [hmmr, hembed, hne, if_neg]
  rw [← hscore]
  exact List.mem_map_of_mem (fun d => (d, mmrScore v d)) hd

/-- Witness for C9: a store whose lookup returns no result. -/
theorem C9_mmr_default_score_witness :
    (mmrDoc, (1 : ℚ)/2) ∈ search_mmr (some mmrFixStore) "q" 5 20 (1/2) :=
  C9_mmr_default_score mmrFixStore "q" 5 20 (1/2) [mmrDoc] mmrDoc rfl rfl
    (List.mem_singleton.mpr rfl) (Or.inl rfl)

/-- Claim C10 counterexample: a balanced-mode request whose retrieval is
empty has `needs_fallback = true`, yet generation is not attempted — the
fixed no-documents message is returned instead. -/
theorem C10_balanced_counterexample :
    (calculate_confidence ([] : List (Doc × ℚ)) (1/4) 1).2 = true ∧
    rag_query_path true none "q" 5 (1/2) (1/4) 1 RetrievalMode.similarity
      AnswerMode.balanced = AnswerSource.noDocsMessage ∧
    rag_query_path true none "q" 5 (1/2) (1/4) 1 RetrievalMode.similarity
      AnswerMode.balanced ≠ AnswerSource.generated := by
  refine ⟨rfl, by decide, by decide⟩

/-- Claim C10 (amended): the templated fallback answer is produced exactly
when `needs_fallback` holds and the answer mode is strict; in balanced or
creative mode with a non-empty retrieval result, generation is attempted
even when `needs_fallback` is true (empty retrieval instead yields the
fixed no-documents message).  Both the synchronous and streaming variants
behave identically. -/
theorem C10_mode_gates_fallback (vs : Option Store) (question : String)
    (top_k : Nat) (mmr_lambda min_score : ℚ) (min_sources : ℤ)
    (rmode : RetrievalMode) (amode : AnswerMode)
    (hmode : amode ≠ AnswerMode.strict)
    (hdocs : (if rmode = RetrievalMode.mmr then
        search_mmr vs question top_k 20 mmr_lambda
      else search_similar vs question top_k) ≠ []) :
    rag_query_path true vs question top_k mmr_lambda min_score min_sources
      rmode amode = AnswerSource.generated ∧
    rag_stream_path true vs question top_k mmr_lambda min_score min_sources
      rmode amode = AnswerSource.generated ∧
    ∀ m2 : AnswerMode,
      (rag_query_path true vs question top_k mmr_lambda min_score
          min_sources rmode m2 = AnswerSource.fallbackTemplate ↔
        ((calculate_confidence
            (if rmode = RetrievalMode.mmr then
              search_mmr vs question top_k 20 mmr_lambda
            else search_similar vs question top_k) min_score
            min_sources).2 = true ∧ m2 = AnswerMode.strict)) ∧
      (rag_stream_path true vs question top_k mmr_lambda min_score
          min_sources rmode m2 = AnswerSource.fallbackTemplate ↔
        ((calculate_confidence
            (if rmode = RetrievalMode.mmr then
              search_mmr vs question top_k 20 mmr_lambda
            else search_similar vs question top_k) min_score
            min_sources).2 = true ∧ m2 = AnswerMode.strict)) := by
  have hempty : (if rmode = RetrievalMode.mmr then
      search_mmr vs question top_k 20 mmr_lambda
    else search_similar vs question top_k).isEmpty = false := by
    rw [List.isEmpty_eq_false]
    exact hdocs
  refine ⟨?_, ?_, ?_⟩
  · unfold rag_query_path
    rw [if_neg (by decide : ¬ (true = false))]
    rw [if_neg ?_, if_neg (by rw [hempty]; decide)]
    rintro ⟨_, hstrict⟩
    exact hmode hstrict
  · unfold rag_stream_path
    rw [if_neg (by decide : ¬ (true = false))]
    rw [if_neg ?_, if_neg (by rw [hempty]; decide)]
    rintro ⟨_, hstrict⟩
    exact hmode hstrict
  · intro m2
    constructor
    · unfold rag_query_path
      rw [if_neg (by decide : ¬ (true = false))]
      by_cases hcond : (calculate_confidence
          (if rmode = RetrievalMode.mmr then
            search_mmr vs question top_k 20 mmr_lambda
          else search_similar vs question top_k) min_score
          min_sources).2 = true ∧ m2 = AnswerMode.strict
      · rw [if_pos hcond]
        simp [hcond]
      · rw [if_neg hcond]
        rw [if_neg (by rw [hempty]; decide)]
        simp [hcond]
    · unfold rag_stream_path
      rw [if_neg (by decide : ¬ (true = false))]
      by_cases hcond : (calculate_confidence
          (if rmode = RetrievalMode.mmr then
            search_mmr vs question top_k 20 mmr_lambda
          else search_similar vs question top_k) min_score
          min_sources).2 = true ∧ m2 = AnswerMode.strict
      · rw [if_pos hcond]
        simp [hcond]
      · rw [if_neg hcond]
        rw [if_neg (by rw [hempty]; decide)]
        simp [hcond]

/-- Witness for C10 (amended): a balanced-mode request over a store whose
single result scores below the threshold (`needs_fallback = true`) still
reaches generation. -/
theorem C10_mode_gates_fallback_witness :
    rag_query_path true (some lowScoreStore) "q" 5 (1/2) (1/4) 1
      RetrievalMode.similarity AnswerMode.balanced =
        AnswerSource.generated ∧
    rag_stream_path true (some lowScoreStore) "q" 5 (1/2) (1/4) 1
      RetrievalMode.similarity AnswerMode.balanced =
        AnswerSource.generated ∧
    ∀ m2 : AnswerMode,
      (rag_query_path true (some lowScoreStore) "q" 5 (1/2) (1/4) 1
          RetrievalMode.similarity m2 = AnswerSource.fallbackTemplate ↔
        ((calculate_confidence
            (if RetrievalMode.similarity = RetrievalMode.mmr then
              search_mmr (some lowScoreStore) "q" 5 20 (1/2)
            else search_similar (some lowScoreStore) "q" 5) (1/4)
            1).2 = true ∧ m2 = AnswerMode.strict)) ∧
      (rag_stream_path true (some lowScoreStore) "q" 5 (1/2) (1/4) 1
          RetrievalMode.similarity m2 = AnswerSource.fallbackTemplate ↔
        ((calculate_confidence
            (if RetrievalMode.similarity = RetrievalMode.mmr then
              search_mmr (some lowScoreStore) "q" 5 20 (1/2)
            else search_similar (some lowScoreStore) "q" 5) (1/4)
            1).2 = true ∧ m2 = AnswerMode.strict)) :=
  C10_mode_gates_fallback (some lowScoreStore) "q" 5 (1/2) (1/4) 1
    RetrievalMode.similarity AnswerMode.balanced (by decide) (by decide)

end RagAgent
